import Mathlib

/-!
Shallow embedding of the NoteMaster backend core (notes_backend/src/api):
the data model (`models.py`, `schemas.py`), the authentication layer
(`auth.py`) and the route handlers (`main.py`).  Databases are modelled as
lists of records, timestamps as integers, and the external bcrypt and JWT
libraries as explicit function parameters respectively a symbolic token
structure recording exactly the data the library calls bind.
-/

deriving instance DecidableEq for Except

namespace NoteMaster

/-- User row (`models.py`, class `User`): id, unique username and email,
bcrypt hash of the password, creation timestamp. -/
structure User where
  id : Nat
  username : String
  email : String
  hashed_password : String
  created_at : Int
deriving DecidableEq

/-- Note row (`models.py`, class `Note`): id, title, nullable content,
owning user's id, creation and last-update timestamps. -/
structure Note where
  id : Nat
  title : String
  content : Option String
  owner_id : Nat
  created_at : Int
  updated_at : Int
deriving DecidableEq

/-- Response schema `UserOut` (`schemas.py`): id, username, email and
created_at only — the type has no field for the password hash. -/
structure UserOut where
  id : Nat
  username : String
  email : String
  created_at : Int
deriving DecidableEq

/-- Projection of a stored `User` row to the `UserOut` response schema
(FastAPI `response_model=UserOut` with `orm_mode`). -/
def toUserOut (u : User) : UserOut :=
  { id := u.id, username := u.username, email := u.email, created_at := u.created_at }

/-- Request schema `NoteUpdate` (`schemas.py`): both fields are
`Optional[str] = None`; the subclass redeclares `title` with no length
constraint, so no validation is attached to either field. -/
structure NoteUpdate where
  title : Option String
  content : Option String
deriving DecidableEq

/-- Pydantic v1 parsing of a `NoteUpdate` body field declared
`Optional[str] = None`: an absent field takes the default `None` and a field
explicitly supplied as JSON null also parses to `None`, so the two are
collapsed to the same value (`Option.join` on absent-or-null-or-string). -/
def parse_note_update (title_field content_field : Option (Option String)) : NoteUpdate :=
  { title := title_field.join, content := content_field.join }

/-- Request schema `NoteCreate` (`schemas.py`, inheriting `NoteBase`):
required title with `max_length=200` (no minimum), optional content. -/
structure NoteCreate where
  title : String
  content : Option String
deriving DecidableEq

/-- Validation Pydantic applies to `NoteCreate.title`
(`Field(..., max_length=200)`): only an upper length bound. -/
def note_create_valid (c : NoteCreate) : Bool :=
  c.title.length ≤ 200

/-- Response schema `Message` (`schemas.py`). -/
structure Message where
  detail : String
deriving DecidableEq

/-- An HTTP error outcome as raised via `HTTPException(status_code, detail,
headers)`; `www_authenticate` records the `WWW-Authenticate` header when the
handler sets one. -/
structure HTTPError where
  status : Nat
  detail : String
  www_authenticate : Option String
deriving DecidableEq

/-- Symbolic JWT (the data bound by `jose.jwt.encode`/`decode` as used in
`auth.py` with one HS256 secret): whether the string parses as a token at
all, which key its signature verifies under, and the claims `sub` and
`exp` of its payload. -/
structure Jwt where
  wellFormed : Bool
  signedWith : String
  sub : Option String
  exp : Int
deriving DecidableEq

/-- Response schema `Token` (`schemas.py`): the issued JWT plus the token
type string. -/
structure Token where
  access_token : Jwt
  token_type : String
deriving DecidableEq

/-- Decoded JWT payload as read by `get_current_user` (`payload.get("sub")`
and the `exp` claim checked by the library). -/
structure Claims where
  sub : Option String
  exp : Int
deriving DecidableEq

/-- Failure of `jose.jwt.decode` (all are subclasses of `JWTError`, which is
what `get_current_user` catches). -/
inductive JWTError where
  | malformed
  | badSignature
  | expired
deriving DecidableEq

/-- Configuration `ACCESS_TOKEN_EXPIRE_MINUTES` (`auth.py`): environment
override defaults to 60. -/
def ACCESS_TOKEN_EXPIRE_MINUTES : Int := 60

/-- The function `create_access_token` (`auth.py`) at its call sites, where
`data = \x7b"sub": username\x7d`: the expiry is now plus `expires_delta`,
defaulting to `ACCESS_TOKEN_EXPIRE_MINUTES` minutes, and the result is
signed with the configured secret.  Times are in seconds. -/
def create_access_token (secret : String) (sub : String) (now : Int)
    (expires_delta : Option Int) : Jwt :=
  { wellFormed := true, signedWith := secret, sub := some sub,
    exp := now + expires_delta.getD (ACCESS_TOKEN_EXPIRE_MINUTES * 60) }

/-- Semantics of `jose.jwt.decode(token, SECRET_KEY, algorithms=[ALGORITHM])`:
raises on a string that is not a well-formed token, on a signature that does
not verify under the given key, and on an `exp` claim before the current
time; otherwise returns the payload. -/
def jwt_decode (secret : String) (now : Int) (t : Jwt) : Except JWTError Claims :=
  if t.wellFormed = false then .error .malformed
  else if t.signedWith ≠ secret then .error .badSignature
  else if t.exp < now then .error .expired
  else .ok { sub := t.sub, exp := t.exp }

/-- The single 401 error value `credentials_exception` built in
`get_current_user` (`auth.py`), carrying the Bearer challenge header. -/
def credentials_exception : HTTPError :=
  { status := 401, detail := "Could not validate credentials",
    www_authenticate := some "Bearer" }

/-- The dependency `get_current_user` (`auth.py`): decode the token, read the
`sub` claim, look the username up in the users table; every failure raises
the same `credentials_exception`. -/
def get_current_user (secret : String) (now : Int) (db : List User) (t : Jwt) :
    Except HTTPError User :=
  match jwt_decode secret now t with
  | .error _ => .error credentials_exception
  | .ok payload =>
    match payload.sub with
    | none => .error credentials_exception
    | some username =>
      match db.find? (fun u => u.username == username) with
      | none => .error credentials_exception
      | some u => .ok u

/-- The function `authenticate_user` (`auth.py`): look up by username, then
verify the password against the stored hash; `verify` stands for
`pwd_context.verify`. -/
def authenticate_user (verify : String → String → Bool) (db : List User)
    (username password : String) : Option User :=
  match db.find? (fun u => u.username == username) with
  | none => none
  | some u => if verify password u.hashed_password then some u else none

/-- The handler `login_for_access_token` (`main.py`): authenticate, then
issue a token for the user's username with the default expiry. -/
def login_for_access_token (verify : String → String → Bool) (secret : String)
    (db : List User) (username password : String) (now : Int) :
    Except HTTPError Token :=
  match authenticate_user verify db username password with
  | none => .error { status := 401, detail := "Incorrect username or password",
                     www_authenticate := some "Bearer" }
  | some u => .ok { access_token := create_access_token secret u.username now none,
                    token_type := "bearer" }

/-- The 400 error raised by `register` (`main.py`) on a duplicate username
or email (the spec's `Conflict`). -/
def register_conflict_error : HTTPError :=
  { status := 400, detail := "Username or email is already registered",
    www_authenticate := none }

/-- The handler `register` (`main.py`): one combined lookup for an existing
row with the same username OR email; on a hit, the conflict error; otherwise
persist a new user with the hashed password, a server-assigned id and
creation timestamp, and return it through the `UserOut` response model.
`hash` stands for `get_password_hash` (bcrypt); `next_id` for the id the
store assigns. -/
def register (hash : String → String) (db : List User) (next_id : Nat)
    (username email password : String) (now : Int) :
    Except HTTPError (List User × UserOut) :=
  if db.any (fun u => u.username == username || u.email == email) then
    .error register_conflict_error
  else
    let u : User := { id := next_id, username := username, email := email,
                      hashed_password := hash password, created_at := now }
    .ok (db ++ [u], toUserOut u)

/-- The 404 error raised by `get_note`, `update_note` and `delete_note`
(`main.py`) when the owner-scoped lookup misses. -/
def note_not_found : HTTPError :=
  { status := 404, detail := "Note not found", www_authenticate := none }

/-- The owner-scoped lookup shared by the three single-note handlers
(`main.py`): `db.query(Note).filter(Note.id == note_id,
Note.owner_id == current_user.id).first()`. -/
def find_owned (db : List Note) (uid nid : Nat) : Option Note :=
  db.find? (fun n => n.id == nid && n.owner_id == uid)

/-- The handler `get_note` (`main.py`): owner-scoped lookup, 404 on a miss. -/
def get_note (db : List Note) (uid nid : Nat) : Except HTTPError Note :=
  match find_owned db uid nid with
  | none => .error note_not_found
  | some n => .ok n

/-- Field application of `update_note` (`main.py`): each patch field is
copied onto the row only when it is not None; the `updated_at` column has
`onupdate=func.now()` (`models.py`), refreshing it when the row is written. -/
def apply_note_patch (patch : NoteUpdate) (now : Int) (n : Note) : Note :=
  { n with
    title := match patch.title with | some t => t | none => n.title,
    content := match patch.content with | some c => some c | none => n.content,
    updated_at := now }

/-- The handler `update_note` (`main.py`): owner-scoped lookup, 404 on a
miss; otherwise apply the patch, commit, and return the refreshed row
together with the resulting table. -/
def update_note (db : List Note) (uid nid : Nat) (patch : NoteUpdate) (now : Int) :
    Except HTTPError (List Note × Note) :=
  match find_owned db uid nid with
  | none => .error note_not_found
  | some n =>
    let n2 := apply_note_patch patch now n
    .ok (db.map (fun m => if m.id == n.id then n2 else m), n2)

/-- The handler `delete_note` (`main.py`): owner-scoped lookup, 404 on a
miss; otherwise delete the row and return the confirmation message. -/
def delete_note (db : List Note) (uid nid : Nat) :
    Except HTTPError (List Note × Message) :=
  match find_owned db uid nid with
  | none => .error note_not_found
  | some n =>
    .ok (db.filter (fun m => m.id != n.id), { detail := "Note deleted." })

/-- Ascending order on `created_at` (`order_by(Note.created_at)`). -/
def created_asc (a b : Note) : Prop := a.created_at ≤ b.created_at

/-- Descending order on `created_at` (`order_by(Note.created_at.desc())`). -/
def created_desc (a b : Note) : Prop := b.created_at ≤ a.created_at

/-- Ascending order on `title` (`order_by(Note.title)`). -/
def title_asc (a b : Note) : Prop := a.title ≤ b.title

/-- Descending order on `title` (`order_by(Note.title.desc())`). -/
def title_desc (a b : Note) : Prop := b.title ≤ a.title

instance : DecidableRel created_asc :=
  fun a b => Int.decLe a.created_at b.created_at

instance : DecidableRel created_desc :=
  fun a b => Int.decLe b.created_at a.created_at

instance : DecidableRel title_asc :=
  fun a b => inferInstanceAs (Decidable (a.title ≤ b.title))

instance : DecidableRel title_desc :=
  fun a b => inferInstanceAs (Decidable (b.title ≤ a.title))

instance : IsTotal Note created_asc :=
  ⟨fun a b => Int.le_total a.created_at b.created_at⟩

instance : IsTrans Note created_asc :=
  ⟨fun _ _ _ h1 h2 => le_trans h1 h2⟩

/-- Case-insensitive substring test on character lists, the semantics of
the SQL `ilike` pattern built by `Note.title.ilike(f"%\x7bq\x7d%")` for a
wildcard-free search string. -/
def chars_contain (needle : List Char) : List Char → Bool
  | [] => needle.isEmpty
  | c :: rest => needle.isPrefixOf (c :: rest) || chars_contain needle rest

/-- Title filter of `list_notes`: case-insensitive substring match of the
search string against the title. -/
def ilike_title (q : String) (n : Note) : Bool :=
  chars_contain (q.toList.map Char.toLower) (n.title.toList.map Char.toLower)

/-- FastAPI default for the `sort` query parameter of `list_notes`
(`Query("created")`): this is the value the handler receives when the
client sends no sort key. -/
def SORT_DEFAULT : String := "created"

/-- FastAPI default for the `limit` query parameter of `list_notes`
(`Query(20, gt=0, le=100)`). -/
def LIMIT_DEFAULT : Int := 20

/-- Python's `sort.lstrip('-')`: remove every leading hyphen. -/
def lstrip_dashes (s : String) : List Char :=
  s.toList.dropWhile (fun c => c == '-')

/-- The 422 validation failure FastAPI produces when the `limit` query
parameter falls outside `gt=0, le=100` — the request is rejected before the
handler body runs. -/
def limit_validation_error : HTTPError :=
  { status := 422, detail := "limit must satisfy gt=0, le=100",
    www_authenticate := none }

/-- The 400 error raised by `list_notes` on a sort key whose
`lstrip('-')` is neither created nor title. -/
def invalid_sort_error : HTTPError :=
  { status := 400, detail := "Invalid sort key", www_authenticate := none }

/-- Owner scoping plus optional title filter of `list_notes` (`main.py`):
`filter(Note.owner_id == current_user.id)`, then `if q:` the `ilike`
title filter (an empty search string, being falsy, applies no filter). -/
def owned_filtered (db : List Note) (uid : Nat) (q : Option String) : List Note :=
  let owned := db.filter (fun n => n.owner_id == uid)
  match q with
  | none => owned
  | some s => if s.toList.isEmpty then owned else owned.filter (ilike_title s)

/-- The handler `list_notes` (`main.py`).  FastAPI validates `limit`
(`gt=0, le=100`) before the body runs.  The body scopes to the owner,
applies the optional title filter, then: a falsy (empty) sort value orders
by `created_at` descending; otherwise a sort value whose `lstrip('-')` is
neither created nor title is a 400, and the remaining values order by
`created_at` or `title`, descending exactly when the value starts with a
hyphen.  Finally the first `limit` rows are returned.  Ordering of an SQL
`ORDER BY` on ties is unspecified; the embedding fixes a stable sort. -/
def list_notes (db : List Note) (uid : Nat) (q : Option String)
    (sort : String) (limit : Int) : Except HTTPError (List Note) :=
  if ¬ (0 < limit ∧ limit ≤ 100) then .error limit_validation_error
  else
    let filtered := owned_filtered db uid q
    if sort.toList.isEmpty then
      .ok ((filtered.insertionSort created_desc).take limit.toNat)
    else if ¬ (lstrip_dashes sort = "created".toList ∨ lstrip_dashes sort = "title".toList) then
      .error invalid_sort_error
    else
      let descending := sort.toList.head? == some '-'
      let sorted :=
        if lstrip_dashes sort = "created".toList then
          if descending then filtered.insertionSort created_desc
          else filtered.insertionSort created_asc
        else
          if descending then filtered.insertionSort title_desc
          else filtered.insertionSort title_asc
      .ok (sorted.take limit.toNat)

/-- Example note: the older of two notes of user 1. -/
def exNoteA : Note :=
  { id := 1, title := "A", content := none, owner_id := 1,
    created_at := 10, updated_at := 10 }

/-- Example note: the newer of two notes of user 1. -/
def exNoteB : Note :=
  { id := 2, title := "B", content := none, owner_id := 1,
    created_at := 20, updated_at := 20 }

/-- Example note of user 2, used for cross-owner access checks. -/
def exNoteC : Note :=
  { id := 3, title := "C", content := some "c", owner_id := 2,
    created_at := 5, updated_at := 5 }

/-- A 201-character title, above the documented 200-character bound. -/
def longTitle : String := String.mk (List.replicate 201 'a')

/-- Example user for the token round trip. -/
def exUser : User :=
  { id := 1, username := "alice", email := "a@x.com",
    hashed_password := "password123", created_at := 0 }

/-- Configuration `SECRET_KEY` (`auth.py`): environment override with the
hardcoded fallback. -/
def SECRET_KEY : String := "supersecretkey"

/-- A well-formed, correctly signed, unexpired token whose subject names no
stored user. -/
def exOrphanToken : Jwt :=
  { wellFormed := true, signedWith := SECRET_KEY, sub := some "bob", exp := 100 }

set_option maxRecDepth 4000

/-- Helper: when no note in the table has the requested id under the
requesting owner, the scoped lookup misses. -/
theorem find_owned_eq_none (db : List Note) (uid nid : Nat)
    (h : ∀ n ∈ db, n.id = nid → n.owner_id ≠ uid) :
    find_owned db uid nid = none := by
  rw [find_owned, List.find?_eq_none]
  intro x hx
  simp only [Bool.and_eq_true, beq_iff_eq, not_and]
  intro hid
  exact fun howner => h x hx hid howner

/-- Helper: a successful `jwt_decode` forces a well-formed token signed with
the given secret, an unexpired `exp`, and returns the token's own claims. -/
theorem jwt_decode_ok_inv (secret : String) (now : Int) (t : Jwt) (p : Claims)
    (h : jwt_decode secret now t = .ok p) :
    t.wellFormed = true ∧ t.signedWith = secret ∧ ¬ t.exp < now ∧ p.sub = t.sub := by
  unfold jwt_decode at h
  split_ifs at h with h1 h2 h3
  refine ⟨by simpa using h1, by simpa using h2, h3, ?_⟩
  injection h with h4
  rw [← h4]

/-- Helper: with the FastAPI default sort value the handler orders by
`created_at` ascending; all sort-key string tests are closed and reduce. -/
theorem list_notes_default_eq (db : List Note) (uid : Nat) (q : Option String)
    (limit : Int) :
    list_notes db uid q SORT_DEFAULT limit =
      if ¬ (0 < limit ∧ limit ≤ 100) then .error limit_validation_error
      else .ok (((owned_filtered db uid q).insertionSort created_asc).take limit.toNat) :=
  rfl

/-- C1: get, update and delete all scope the lookup to id AND owner and fail
with one and the same `note_not_found` outcome when the note is absent or
owned by someone else (never a distinct forbidden outcome), and a note is
returned only when its `owner_id` is the requesting user's id. -/
theorem note_crud_owner_scoped (db : List Note) (uid nid : Nat)
    (patch : NoteUpdate) (now : Int) :
    ((∀ n ∈ db, n.id = nid → n.owner_id ≠ uid) →
      get_note db uid nid = .error note_not_found ∧
      update_note db uid nid patch now = .error note_not_found ∧
      delete_note db uid nid = .error note_not_found) ∧
    (∀ n, get_note db uid nid = .ok n → n.owner_id = uid ∧ n.id = nid ∧ n ∈ db) := by
  constructor
  · intro h
    have hf : find_owned db uid nid = none := find_owned_eq_none db uid nid h
    refine ⟨?_, ?_, ?_⟩ <;> simp [get_note, update_note, delete_note, hf]
  · intro n hn
    unfold get_note at hn
    cases hf : find_owned db uid nid with
    | none => rw [hf] at hn; cases hn
    | some m =>
      rw [hf] at hn
      injection hn with hnm
      subst hnm
      unfold find_owned at hf
      have hp := List.find?_some hf
      have hm := List.mem_of_find?_eq_some hf
      simp only [Bool.and_eq_true, beq_iff_eq] at hp
      exact ⟨hp.2, hp.1, hm⟩

/-- Witness for C1: user 1 requesting note 3, which exists but belongs to
user 2 — all three operations answer with the same `note_not_found`. -/
theorem note_crud_owner_scoped_witness :
    get_note [exNoteC] 1 3 = .error note_not_found ∧
    update_note [exNoteC] 1 3 { title := none, content := none } 0 = .error note_not_found ∧
    delete_note [exNoteC] 1 3 = .error note_not_found :=
  (note_crud_owner_scoped [exNoteC] 1 3 { title := none, content := none } 0).1 (by decide)

/-- C2: every failure cause on an authenticated request — malformed token,
bad signature, expired token, absent `sub` claim, or a subject naming no
stored user — produces the identical `credentials_exception`: a 401
carrying the Bearer challenge header. -/
theorem auth_failures_uniform (secret : String) (now : Int) (db : List User) (t : Jwt)
    (h : t.wellFormed = false ∨ t.signedWith ≠ secret ∨ t.exp < now ∨ t.sub = none ∨
      (∃ s, t.sub = some s ∧ ∀ u ∈ db, u.username ≠ s)) :
    get_current_user secret now db t = .error credentials_exception ∧
    credentials_exception.status = 401 ∧
    credentials_exception.www_authenticate = some "Bearer" := by
  refine ⟨?_, rfl, rfl⟩
  unfold get_current_user
  cases hd : jwt_decode secret now t with
  | error e => rfl
  | ok p =>
    obtain ⟨hw, hs, he, hsub⟩ := jwt_decode_ok_inv secret now t p hd
    rcases h with h | h | h | h | ⟨s, hss, hnouser⟩
    · rw [hw] at h; cases h
    · exact absurd hs h
    · exact absurd h he
    · simp [hsub.trans h]
    · have hfind : db.find? (fun u => u.username == s) = none := by
        rw [List.find?_eq_none]
        intro u hu
        simpa using hnouser u hu
      simp [hsub.trans hss, hfind]

/-- Witness for C2: a well-formed, correctly signed, unexpired token whose
subject is a user that is not in the store fails exactly like a bad token. -/
theorem auth_failures_uniform_witness :
    get_current_user SECRET_KEY 50 [exUser] exOrphanToken = .error credentials_exception ∧
    credentials_exception.status = 401 ∧
    credentials_exception.www_authenticate = some "Bearer" :=
  auth_failures_uniform SECRET_KEY 50 [exUser] exOrphanToken
    (Or.inr (Or.inr (Or.inr (Or.inr ⟨"bob", rfl, by decide⟩))))

/-- C3 counterexample: two notes of user 1, created at times 10 and 20;
listing with the handler's defaults returns the OLDER note first, because
the `sort` query parameter defaults to the value created (ascending), not
-created — the claimed newest-first default ordering is refuted. -/
theorem list_default_sort_cex :
    list_notes [exNoteB, exNoteA] 1 none SORT_DEFAULT LIMIT_DEFAULT = .ok [exNoteA, exNoteB] ∧
    exNoteA.created_at < exNoteB.created_at ∧
    ([exNoteA, exNoteB] : List Note) ≠ [exNoteB, exNoteA] := by
  decide

/-- C3 amended: invoked without a sort_key the handler receives the default
sort value created and returns the user's notes ordered by creation time
ASCENDING (oldest first). -/
theorem list_default_sort_created_asc (db : List Note) (uid : Nat)
    (q : Option String) (limit : Int) (ns : List Note)
    (h : list_notes db uid q SORT_DEFAULT limit = .ok ns) :
    SORT_DEFAULT = "created" ∧ List.Sorted created_asc ns := by
  refine ⟨rfl, ?_⟩
  rw [list_notes_default_eq] at h
  split at h
  · cases h
  · injection h with h2
    rw [← h2]
    exact List.Pairwise.sublist (List.take_sublist _ _)
      (List.sorted_insertionSort created_asc _)

/-- Witness for C3's amended theorem at the concrete two-note table. -/
theorem list_default_sort_created_asc_witness :
    SORT_DEFAULT = "created" ∧ List.Sorted created_asc [exNoteA, exNoteB] :=
  list_default_sort_created_asc [exNoteB, exNoteA] 1 none LIMIT_DEFAULT
    [exNoteA, exNoteB] (by decide)

/-- C4 counterexample: the value --created is none of the four documented
sort keys, yet the list operation accepts it (Python's `lstrip('-')` strips
every leading hyphen), ordering by creation time descending. -/
theorem list_sort_lstrip_cex :
    (("--created" : String) ∉ (["created", "-created", "title", "-title"] : List String)) ∧
    list_notes [exNoteB, exNoteA] 1 none "--created" 20 = .ok [exNoteB, exNoteA] := by
  decide

/-- C4 amended: for an in-range limit, a sort value is accepted exactly when
it is empty or stripping ALL leading hyphens leaves created or title (so
values such as --created or ---title are also accepted); every other value
fails with the 400 invalid-sort error. -/
theorem list_sort_acceptance (db : List Note) (uid : Nat) (q : Option String)
    (sort : String) (limit : Int) (hl : 0 < limit ∧ limit ≤ 100) :
    ((list_notes db uid q sort limit).isOk = true ↔
      (sort.toList.isEmpty = true ∨ lstrip_dashes sort = "created".toList ∨
        lstrip_dashes sort = "title".toList)) ∧
    (¬ (sort.toList.isEmpty = true ∨ lstrip_dashes sort = "created".toList ∨
        lstrip_dashes sort = "title".toList) →
      list_notes db uid q sort limit = .error invalid_sort_error) := by
  unfold list_notes
  rw [if_neg (not_not_intro hl)]
  by_cases he : sort.toList.isEmpty = true
  · rw [if_pos he]
    exact ⟨iff_of_true rfl (Or.inl he), fun hcon => absurd (Or.inl he) hcon⟩
  · rw [if_neg he]
    by_cases hv : lstrip_dashes sort = "created".toList ∨ lstrip_dashes sort = "title".toList
    · rw [if_neg (not_not_intro hv)]
      exact ⟨iff_of_true rfl (Or.inr hv), fun hcon => absurd (Or.inr hv) hcon⟩
    · rw [if_pos hv]
      refine ⟨iff_of_false ?_ (fun hcon => hcon.elim he hv), fun _ => rfl⟩
      intro hcon
      exact Bool.noConfusion hcon

/-- Witness for C4's amended theorem: the sort value --created is accepted,
while the value bogus is rejected with the invalid-sort error. -/
theorem list_sort_acceptance_witness :
    ((list_notes [exNoteB, exNoteA] 1 none "--created" 20).isOk = true ↔
      (("--created" : String).toList.isEmpty = true ∨
        lstrip_dashes "--created" = "created".toList ∨
        lstrip_dashes "--created" = "title".toList)) ∧
    (¬ (("--created" : String).toList.isEmpty = true ∨
        lstrip_dashes "--created" = "created".toList ∨
        lstrip_dashes "--created" = "title".toList) →
      list_notes [exNoteB, exNoteA] 1 none "--created" 20 = .error invalid_sort_error) :=
  list_sort_acceptance [exNoteB, exNoteA] 1 none "--created" 20 (by decide)

/-- C5 counterexample: `NoteUpdate` redeclares `title` as a plain optional
string, so a patch carrying a 201-character title is not rejected: the
update succeeds and stores the over-long title on the note. -/
theorem update_title_unchecked_cex :
    200 < longTitle.length ∧
    update_note [exNoteC] 2 3 { title := some longTitle, content := none } 30 =
      .ok ([{ exNoteC with title := longTitle, updated_at := 30 }],
           { exNoteC with title := longTitle, updated_at := 30 }) :=
  ⟨by decide, rfl⟩

/-- C5 amended: a title supplied in the update patch undergoes no length
validation at all — any string, of any length, is accepted and becomes the
note's new title (only note creation checks a 200-character maximum, and
nothing anywhere enforces a 1-character minimum). -/
theorem update_title_unchecked (db : List Note) (uid nid : Nat) (t : String)
    (now : Int) (n : Note) (hfind : find_owned db uid nid = some n) :
    ∃ db2 n2,
      update_note db uid nid { title := some t, content := none } now = .ok (db2, n2) ∧
      n2.title = t ∧ n2.updated_at = now := by
  have h : update_note db uid nid { title := some t, content := none } now =
      .ok (db.map (fun m => if m.id == n.id then
             apply_note_patch { title := some t, content := none } now n else m),
           apply_note_patch { title := some t, content := none } now n) := by
    unfold update_note
    rw [hfind]
  exact ⟨_, _, h, rfl, rfl⟩

/-- Witness for C5's amended theorem at the 201-character title. -/
theorem update_title_unchecked_witness :
    ∃ db2 n2,
      update_note [exNoteC] 2 3 { title := some longTitle, content := none } 30 =
        .ok (db2, n2) ∧
      n2.title = longTitle ∧ n2.updated_at = 30 :=
  update_title_unchecked [exNoteC] 2 3 longTitle 30 exNoteC (by decide)

/-- C6: updating an owned note with a patch that sets only `content` leaves
`title`, `created_at`, `owner_id` and `id` unchanged, stores the new
content, stamps `updated_at` with the write time (strictly later than the
old stamp), and returns the updated record. -/
theorem update_content_only_frame (db : List Note) (uid nid : Nat) (c : String)
    (now : Int) (n : Note) (hfind : find_owned db uid nid = some n)
    (hnow : n.updated_at < now) :
    ∃ db2 n2,
      update_note db uid nid { title := none, content := some c } now = .ok (db2, n2) ∧
      n2.content = some c ∧ n2.title = n.title ∧ n2.created_at = n.created_at ∧
      n2.owner_id = n.owner_id ∧ n2.id = n.id ∧ n2.updated_at = now ∧
      n.updated_at < n2.updated_at := by
  have h : update_note db uid nid { title := none, content := some c } now =
      .ok (db.map (fun m => if m.id == n.id then
             apply_note_patch { title := none, content := some c } now n else m),
           apply_note_patch { title := none, content := some c } now n) := by
    unfold update_note
    rw [hfind]
  exact ⟨_, _, h, rfl, rfl, rfl, rfl, rfl, rfl, hnow⟩

/-- Witness for C6: updating the older example note's content at time 30. -/
theorem update_content_only_frame_witness :
    ∃ db2 n2,
      update_note [exNoteA] 1 1 { title := none, content := some "milk" } 30 =
        .ok (db2, n2) ∧
      n2.content = some "milk" ∧ n2.title = exNoteA.title ∧
      n2.created_at = exNoteA.created_at ∧ n2.owner_id = exNoteA.owner_id ∧
      n2.id = exNoteA.id ∧ n2.updated_at = 30 ∧
      exNoteA.updated_at < n2.updated_at :=
  update_content_only_frame [exNoteA] 1 1 "milk" 30 exNoteA (by decide) (by decide)

/-- C7: the `limit` query parameter is validated to 1–100 inclusive before
the handler runs, with default 20: limit 0 and limit 101 are rejected at the
boundary, limit 100 succeeds and returns at most 100 notes, and in general a
request with the default sort succeeds exactly when 0 < limit ≤ 100. -/
theorem list_limit_bounds (db : List Note) (uid : Nat) (q : Option String)
    (limit : Int) :
    (list_notes db uid q SORT_DEFAULT 0).isOk = false ∧
    (list_notes db uid q SORT_DEFAULT 101).isOk = false ∧
    (∃ ns, list_notes db uid q SORT_DEFAULT 100 = .ok ns ∧ ns.length ≤ 100) ∧
    LIMIT_DEFAULT = 20 ∧ 0 < LIMIT_DEFAULT ∧ LIMIT_DEFAULT ≤ 100 ∧
    ((list_notes db uid q SORT_DEFAULT limit).isOk = true ↔
      0 < limit ∧ limit ≤ 100) := by
  refine ⟨?_, ?_, ?_, rfl, by decide, by decide, ?_⟩
  · rw [list_notes_default_eq, if_pos (by decide)]
    rfl
  · rw [list_notes_default_eq, if_pos (by decide)]
    rfl
  · rw [list_notes_default_eq, if_neg (by decide)]
    refine ⟨_, rfl, ?_⟩
    rw [List.length_take]
    exact min_le_left _ _
  · rw [list_notes_default_eq]
    by_cases hl : 0 < limit ∧ limit ≤ 100
    · rw [if_neg (not_not_intro hl)]
      exact iff_of_true rfl hl
    · rw [if_pos hl]
      exact iff_of_false (fun hcon => Bool.noConfusion hcon) hl

/-- C8: registration fails with the conflict error exactly when some stored
user already has the requested username or email (one combined lookup);
otherwise it appends a user whose stored password is the hash of the
plaintext, with the server-assigned id and creation timestamp, and returns
the `UserOut` view — which is independent of the password hash. -/
theorem register_conflict_and_create (hash : String → String) (db : List User)
    (next_id : Nat) (username email password : String) (now : Int) :
    ((∃ u ∈ db, u.username = username ∨ u.email = email) →
      register hash db next_id username email password now = .error register_conflict_error) ∧
    ((∀ u ∈ db, u.username ≠ username ∧ u.email ≠ email) →
      ∃ nu, register hash db next_id username email password now =
          .ok (db ++ [nu], toUserOut nu) ∧
        nu.hashed_password = hash password ∧ nu.id = next_id ∧ nu.created_at = now ∧
        nu.username = username ∧ nu.email = email) ∧
    (∀ (u : User) (h1 h2 : String), toUserOut { u with hashed_password := h1 } =
      toUserOut { u with hashed_password := h2 }) := by
  refine ⟨?_, ?_, fun u h1 h2 => rfl⟩
  · rintro ⟨u, hu, hor⟩
    unfold register
    rw [if_pos]
    rw [List.any_eq_true]
    refine ⟨u, hu, ?_⟩
    rcases hor with h | h <;> simp [h]
  · intro hfree
    unfold register
    rw [if_neg]
    · exact ⟨_, rfl, rfl, rfl, rfl, rfl, rfl⟩
    · rw [List.any_eq_true]
      rintro ⟨u, hu, hp⟩
      rcases hfree u hu with ⟨hn, he⟩
      simp only [Bool.or_eq_true, beq_iff_eq] at hp
      exact hp.elim hn he

/-- Witness for C8: re-registering the username alice conflicts, and a fresh
username and email is persisted with the hashed password. -/
theorem register_conflict_and_create_witness :
    register (fun s => String.append s "#h") [exUser] 2 "alice" "b@x.com" "pw123" 7 =
      .error register_conflict_error ∧
    (∃ nu, register (fun s => String.append s "#h") [exUser] 2 "bob" "b@x.com" "pw123" 7 =
        .ok ([exUser] ++ [nu], toUserOut nu) ∧
      nu.hashed_password = String.append "pw123" "#h" ∧ nu.id = 2 ∧ nu.created_at = 7 ∧
      nu.username = "bob" ∧ nu.email = "b@x.com") :=
  ⟨(register_conflict_and_create (fun s => String.append s "#h") [exUser] 2
      "alice" "b@x.com" "pw123" 7).1 ⟨exUser, by decide, Or.inl rfl⟩,
   (register_conflict_and_create (fun s => String.append s "#h") [exUser] 2
      "bob" "b@x.com" "pw123" 7).2.1 (by decide)⟩

/-- C9: a stored user whose password verifies logs in to a bearer token
whose expiry is issuance time plus the default TTL of 60 minutes and whose
subject is the username; decoding that token with the server secret at any
time before the expiry succeeds with exactly that subject, and the auth
dependency resolves it back to the same user. -/
theorem login_token_roundtrip (verify : String → String → Bool) (secret : String)
    (db : List User) (username password : String) (now : Int) (u : User)
    (hfind : db.find? (fun x => x.username == username) = some u)
    (hverify : verify password u.hashed_password = true) :
    ∃ tok, login_for_access_token verify secret db username password now =
        .ok { access_token := tok, token_type := "bearer" } ∧
      tok.exp = now + ACCESS_TOKEN_EXPIRE_MINUTES * 60 ∧
      ACCESS_TOKEN_EXPIRE_MINUTES = 60 ∧ tok.sub = some u.username ∧
      ∀ t2, t2 < tok.exp →
        jwt_decode secret t2 tok = .ok { sub := some u.username, exp := tok.exp } ∧
        get_current_user secret t2 db tok = .ok u := by
  have hauth : authenticate_user verify db username password = some u := by
    unfold authenticate_user
    rw [hfind]
    simp [hverify]
  refine ⟨create_access_token secret u.username now none, ?_, rfl, rfl, rfl, ?_⟩
  · unfold login_for_access_token
    rw [hauth]
  · intro t2 ht2
    have hne : ¬ (now + ACCESS_TOKEN_EXPIRE_MINUTES * 60 < t2) := lt_asymm ht2
    have hdec : jwt_decode secret t2 (create_access_token secret u.username now none) =
        .ok { sub := some u.username,
              exp := now + ACCESS_TOKEN_EXPIRE_MINUTES * 60 } := by
      simp [jwt_decode, create_access_token, hne]
    refine ⟨hdec, ?_⟩
    unfold get_current_user
    rw [hdec]
    have hu : u.username = username := by
      simpa using List.find?_some hfind
    rw [hu]
    simp [hfind]

/-- Witness for C9: alice logs in at time 0; the token expires at 3600 and
decodes back to alice at time 3599. -/
theorem login_token_roundtrip_witness :
    ∃ tok, login_for_access_token (fun p h => p == h) SECRET_KEY [exUser]
        "alice" "password123" 0 = .ok { access_token := tok, token_type := "bearer" } ∧
      tok.exp = 0 + ACCESS_TOKEN_EXPIRE_MINUTES * 60 ∧
      ACCESS_TOKEN_EXPIRE_MINUTES = 60 ∧ tok.sub = some exUser.username ∧
      ∀ t2, t2 < tok.exp →
        jwt_decode SECRET_KEY t2 tok = .ok { sub := some exUser.username, exp := tok.exp } ∧
        get_current_user SECRET_KEY t2 [exUser] tok = .ok exUser :=
  login_token_roundtrip (fun p h => p == h) SECRET_KEY [exUser]
    "alice" "password123" 0 exUser (by decide) (by decide)

/-- C10: in an update patch a field given as JSON null parses to the same
value as an omitted field; a patch whose content is that value leaves the
note's content unchanged, and consequently a successful update can return a
note with null content only when the stored note already had null content
(and the patch carried none) — content can never be reset to null. -/
theorem patch_null_keeps_value (t : Option (Option String)) (patch : NoteUpdate)
    (n : Note) (now : Int) :
    parse_note_update t (some none) = parse_note_update t none ∧
    (patch.content = none → (apply_note_patch patch now n).content = n.content) ∧
    (∀ db uid nid db2 n2, update_note db uid nid patch now = .ok (db2, n2) →
      n2.content = none →
      ∃ n0, find_owned db uid nid = some n0 ∧ n0.content = none ∧
        patch.content = none) := by
  refine ⟨rfl, ?_, ?_⟩
  · intro h
    simp [apply_note_patch, h]
  · intro db uid nid db2 n2 hup hnone
    unfold update_note at hup
    cases hf : find_owned db uid nid with
    | none => rw [hf] at hup; cases hup
    | some n0 =>
      rw [hf] at hup
      injection hup with hpair
      injection hpair with _ hn2
      refine ⟨n0, rfl, ?_, ?_⟩
      · cases hp : patch.content with
        | none =>
          rw [← hn2] at hnone
          simpa [apply_note_patch, hp] using hnone
        | some c =>
          rw [← hn2] at hnone
          simp [apply_note_patch, hp] at hnone
      · cases hp : patch.content with
        | none => rfl
        | some c =>
          rw [← hn2] at hnone
          simp [apply_note_patch, hp] at hnone

/-- Witness for C10 at a concrete patch and note. -/
theorem patch_null_keeps_value_witness :
    parse_note_update (some (some "x")) (some none) =
      parse_note_update (some (some "x")) none ∧
    (apply_note_patch { title := none, content := none } 0 exNoteC).content =
      exNoteC.content :=
  ⟨(patch_null_keeps_value (some (some "x")) { title := none, content := none }
      exNoteC 0).1,
   (patch_null_keeps_value (some (some "x")) { title := none, content := none }
      exNoteC 0).2.1 rfl⟩

end NoteMaster
